import Mathlib

/-!
Verification development for `generate_flutter_icons.py`.

The script converts one master image (PNG raster or SVG vector) into the
platform icon files of a Flutter project.  This file gives a shallow
embedding of the script's data model and core logic:

* output paths are modelled as `List String` — the sequence of path
  segments relative to the project root (the Python code builds them as
  `base / seg / ... / name`; the common `base` prefix cancels in every
  path comparison the script performs);
* a decoded bitmap is `Img`: width, height, a flag recording whether the
  mode carries an alpha channel (RGBA vs RGB), and a pixel function;
* the Pillow resampling kernel (`Image.resize(..., LANCZOS)`) and the
  pyvips SVG renderer are external library calls; the embedding takes
  them as function parameters (`resize`, `svgRender`).  Every other
  image operation the script performs (square padding, alpha stripping,
  RGBA conversion, SVG canvas padding) is embedded explicitly;
* filesystem facts (`master_path.is_file()`, whether `Image.open`
  succeeds, whether `import pyvips` succeeds) are an `Env` record;
* Python `float` arithmetic in the Android size table (`int(48 * scale)`
  with `scale ∈ {1, 1.5, 2, 3, 4}`) is exact, so scales are embedded as
  halves: `scale2 = 2 * scale` and `int(s * scale) = s * scale2 / 2`.
-/

/-- One RGBA pixel; channel values are bytes `0..255`. -/
structure RGBA where
  r : Nat
  g : Nat
  b : Nat
  a : Nat
deriving Repr, DecidableEq

/-- The fully transparent pixel `(0, 0, 0, 0)` used for padding canvases. -/
def transparentPx : RGBA := ⟨0, 0, 0, 0⟩

/-- A decoded bitmap.  `hasAlpha` records the Pillow mode: `true` for RGBA,
`false` for RGB (no alpha channel).  `px x y` is the pixel at column `x`,
row `y`; values outside the bitmap are irrelevant. -/
structure Img where
  width : Nat
  height : Nat
  hasAlpha : Bool
  px : Nat → Nat → RGBA

/-- `Image.convert("RGBA")`: an RGBA image is unchanged; an image without an
alpha channel gains an opaque alpha channel. -/
def convert_RGBA (i : Img) : Img :=
  if i.hasAlpha then i
  else { i with hasAlpha := true, px := fun x y => { i.px x y with a := 255 } }

/-- Pillow's exact `MULDIV255(a, b)` rounding step used by `Image.paste` with
an 8-bit mask: `tmp = a*b + 128; ((tmp >> 8) + tmp) >> 8`. -/
def muldiv255 (a b : Nat) : Nat :=
  ((a * b + 128) / 256 + (a * b + 128)) / 256

/-- Pillow's per-channel blend for `paste` with an 8-bit mask `m`:
`BLEND(m, bg, src) = MULDIV255(bg, 255-m) + MULDIV255(src, m)`. -/
def blendChannel (m bg src : Nat) : Nat :=
  muldiv255 bg (255 - m) + muldiv255 src m

/-- One pixel of `Image.paste(img, mask=alpha)` onto an opaque white
background: each colour channel is blended between white (255) and the
source using the source pixel's own alpha as the mask; the result has no
alpha channel, recorded here as alpha 255 on an `hasAlpha = false` image. -/
def pasteOnWhitePx (p : RGBA) : RGBA :=
  { r := blendChannel p.a 255 p.r
    g := blendChannel p.a 255 p.g
    b := blendChannel p.a 255 p.b
    a := 255 }

/-- `_strip_alpha(img)` (script lines 268–272): composite the RGBA image onto
an opaque white `"RGB"` background using the image's own alpha band
(`img.split()[3]`) as the paste mask; the result is an RGB image. -/
def strip_alpha (img : Img) : Img :=
  { width := img.width
    height := img.height
    hasAlpha := false
    px := fun x y => pasteOnWhitePx (img.px x y) }

/-- The square padding step of `generate_icons` (script lines 303–308):
a fully transparent `max_dim × max_dim` RGBA canvas with the original
pasted at integer-floor offsets `((max_dim - w) // 2, (max_dim - h) // 2)`. -/
def pad_to_square (img : Img) : Img :=
  let max_dim := max img.width img.height
  let ox := (max_dim - img.width) / 2
  let oy := (max_dim - img.height) / 2
  { width := max_dim
    height := max_dim
    hasAlpha := true
    px := fun x y =>
      if ox ≤ x ∧ x < ox + img.width ∧ oy ≤ y ∧ y < oy + img.height then
        img.px (x - ox) (y - oy)
      else transparentPx }

/-! ## The target catalog

Each `get_*` function mirrors the Python function of the same name: it
returns the platform's output targets as an association list
`(path segments relative to project root, pixel size)` in the Python
dict's insertion order. -/

/-- `get_android_icons`: launcher (48 dp), round launcher (48 dp) and adaptive
foreground (108 dp) icons at the five mipmap densities.  Density scales
`1, 1.5, 2, 3, 4` are stored doubled (`2, 3, 4, 6, 8`) so that Python's
`int(48 * scale)` and `int(108 * scale)` become exact `Nat` arithmetic
`48 * scale2 / 2` and `108 * scale2 / 2`. -/
def get_android_icons : List (List String × Nat) :=
  let res_base : List String := ["android", "app", "src", "main", "res"]
  let densities : List (String × Nat) :=
    [("mipmap-mdpi", 2), ("mipmap-hdpi", 3), ("mipmap-xhdpi", 4),
     ("mipmap-xxhdpi", 6), ("mipmap-xxxhdpi", 8)]
  densities.flatMap (fun d =>
    [ (res_base ++ [d.1, "ic_launcher.png"], 48 * d.2 / 2),
      (res_base ++ [d.1, "ic_launcher_round.png"], 48 * d.2 / 2),
      (res_base ++ [d.1, "ic_launcher_foreground.png"], 108 * d.2 / 2) ])

/-- `IOS_PLATFORM = "ios"`. -/
def IOS_PLATFORM : String := "ios"

/-- The common directory of the iOS `AppIcon.appiconset`. -/
def ios_appicon_dir : List String :=
  ["ios", "Runner", "Assets.xcassets", "AppIcon.appiconset"]

/-- `get_ios_icons`: the iOS `AppIcon.appiconset` size table. -/
def get_ios_icons : List (List String × Nat) :=
  [ (ios_appicon_dir ++ ["Icon-App-20x20@1x.png"], 20),
    (ios_appicon_dir ++ ["Icon-App-20x20@2x.png"], 40),
    (ios_appicon_dir ++ ["Icon-App-20x20@3x.png"], 60),
    (ios_appicon_dir ++ ["Icon-App-29x29@1x.png"], 29),
    (ios_appicon_dir ++ ["Icon-App-29x29@2x.png"], 58),
    (ios_appicon_dir ++ ["Icon-App-29x29@3x.png"], 87),
    (ios_appicon_dir ++ ["Icon-App-40x40@1x.png"], 40),
    (ios_appicon_dir ++ ["Icon-App-40x40@2x.png"], 80),
    (ios_appicon_dir ++ ["Icon-App-40x40@3x.png"], 120),
    (ios_appicon_dir ++ ["Icon-App-60x60@2x.png"], 120),
    (ios_appicon_dir ++ ["Icon-App-60x60@3x.png"], 180),
    (ios_appicon_dir ++ ["Icon-App-76x76@1x.png"], 76),
    (ios_appicon_dir ++ ["Icon-App-76x76@2x.png"], 152),
    (ios_appicon_dir ++ ["Icon-App-83.5x83.5@2x.png"], 167),
    (ios_appicon_dir ++ ["Icon-App-1024x1024@1x.png"], 1024) ]

/-- `get_macos_icons`: the macOS `AppIcon.appiconset` size table. -/
def get_macos_icons : List (List String × Nat) :=
  let dir : List String := ["macos", "Runner", "Assets.xcassets", "AppIcon.appiconset"]
  [ (dir ++ ["app_icon_16.png"], 16),
    (dir ++ ["app_icon_32.png"], 32),
    (dir ++ ["app_icon_64.png"], 64),
    (dir ++ ["app_icon_128.png"], 128),
    (dir ++ ["app_icon_256.png"], 256),
    (dir ++ ["app_icon_512.png"], 512),
    (dir ++ ["app_icon_1024.png"], 1024) ]

/-- `get_linux_icons`: one 256 px desktop icon. -/
def get_linux_icons : List (List String × Nat) :=
  [ (["linux", "flutter", "app_icon.png"], 256) ]

/-- `get_web_icons`: favicon and PWA icons. -/
def get_web_icons : List (List String × Nat) :=
  [ (["web", "favicon.png"], 32),
    (["web", "icons", "Icon-192.png"], 192),
    (["web", "icons", "Icon-512.png"], 512),
    (["web", "icons", "Icon-maskable-192.png"], 192),
    (["web", "icons", "Icon-maskable-512.png"], 512) ]

/-- `get_store_icons`: store listing icons at the project root. -/
def get_store_icons : List (List String × Nat) :=
  [ (["appstore.png"], 1024),
    (["playstore.png"], 512) ]

/-- `get_ios_legacy_icons`: legacy iOS sizes (57/50/72 pt at 1x and 2x). -/
def get_ios_legacy_icons : List (List String × Nat) :=
  [ (ios_appicon_dir ++ ["Icon-App-57x57@1x.png"], 57),
    (ios_appicon_dir ++ ["Icon-App-57x57@2x.png"], 114),
    (ios_appicon_dir ++ ["Icon-App-50x50@1x.png"], 50),
    (ios_appicon_dir ++ ["Icon-App-50x50@2x.png"], 100),
    (ios_appicon_dir ++ ["Icon-App-72x72@1x.png"], 72),
    (ios_appicon_dir ++ ["Icon-App-72x72@2x.png"], 144) ]

/-- `get_watch_icons`: Apple Watch icons for all case sizes. -/
def get_watch_icons : List (List String × Nat) :=
  [ (ios_appicon_dir ++ ["Icon-Watch-24x24@2x.png"], 48),
    (ios_appicon_dir ++ ["Icon-Watch-27.5x27.5@2x.png"], 55),
    (ios_appicon_dir ++ ["Icon-Watch-33x33@2x.png"], 66),
    (ios_appicon_dir ++ ["Icon-Watch-40x40@2x.png"], 80),
    (ios_appicon_dir ++ ["Icon-Watch-44x44@2x.png"], 88),
    (ios_appicon_dir ++ ["Icon-Watch-46x46@2x.png"], 92),
    (ios_appicon_dir ++ ["Icon-Watch-50x50@2x.png"], 100),
    (ios_appicon_dir ++ ["Icon-Watch-51x51@2x.png"], 102),
    (ios_appicon_dir ++ ["Icon-Watch-54x54@2x.png"], 108),
    (ios_appicon_dir ++ ["Icon-Watch-86x86@2x.png"], 172),
    (ios_appicon_dir ++ ["Icon-Watch-98x98@2x.png"], 196),
    (ios_appicon_dir ++ ["Icon-Watch-108x108@2x.png"], 216),
    (ios_appicon_dir ++ ["Icon-Watch-117x117@2x.png"], 234),
    (ios_appicon_dir ++ ["Icon-Watch-129x129@2x.png"], 258) ]

/-- `get_windows_ico_path_and_sizes`: the `.ico` container path and its
frame size list. -/
def get_windows_ico_path_and_sizes : List String × List Nat :=
  ( ["windows", "runner", "resources", "app_icon.ico"],
    [16, 20, 24, 30, 32, 36, 40, 48, 60, 64, 72, 80, 96, 256] )

/-- `PLATFORM_GENERATORS`: the registry of PNG-producing platforms
(every platform except `windows`, which produces the ICO container). -/
def PLATFORM_GENERATORS : List (String × List (List String × Nat)) :=
  [ ("android", get_android_icons),
    ("ios", get_ios_icons),
    ("macos", get_macos_icons),
    ("linux", get_linux_icons),
    ("web", get_web_icons),
    ("store", get_store_icons),
    ("ios-legacy", get_ios_legacy_icons),
    ("watch", get_watch_icons) ]

/-- `DEFAULT_PLATFORMS`: platforms generated when `--platform` is omitted. -/
def DEFAULT_PLATFORMS : List String :=
  ["android", "ios", "macos", "linux", "web", "windows", "store"]

/-- `OPTIONAL_PLATFORMS`: platforms that must be explicitly requested. -/
def OPTIONAL_PLATFORMS : List String := ["ios-legacy", "watch"]

/-- `ALL_PLATFORMS = DEFAULT_PLATFORMS + OPTIONAL_PLATFORMS`. -/
def ALL_PLATFORMS : List String := DEFAULT_PLATFORMS ++ OPTIONAL_PLATFORMS

/-- The PNG target list a catalog platform name produces: the registry
entry's targets, or `[]` for names (such as `"windows"`) with no entry. -/
def catalogTargets (p : String) : List (List String × Nat) :=
  (PLATFORM_GENERATORS.lookup p).getD []

/-- The output paths of a catalog platform's PNG targets. -/
def catalogPaths (p : String) : List (List String) :=
  (catalogTargets p).map Prod.fst

/-! ## Path-string glue

`pathlib.PurePath.name` and `.suffix`, and the `--platform` argument
parsing of `main`, embedded character-by-character so that they are
executable inside the kernel. -/

/-- The index of the last occurrence of `c` in the character list, counting
from position `start` for the head — CPython's `str.rfind` on a single
character. -/
def rfindChar (c : Char) : List Char → Nat → Option Nat
  | [], _ => none
  | x :: xs, start =>
    match rfindChar c xs (start + 1) with
    | some j => some j
    | none => if x = c then some start else none

/-- `pathlib`'s `.name`: the final path component (segments separated by
`/`). -/
def pathName (p : String) : List Char :=
  (p.data.splitOn '/').getLastD []

/-- `pathlib`'s `.suffix` on a file name, per CPython:
`i = name.rfind('.'); name[i:] if 0 < i < len(name) - 1 else ''`. -/
def pathSuffixOfName (name : List Char) : List Char :=
  match rfindChar '.' name 0 with
  | none => []
  | some i => if 0 < i ∧ i < name.length - 1 then name.drop i else []

/-- `str.lower` on ASCII text, character by character. -/
def lowerChars (s : List Char) : List Char := s.map Char.toLower

/-- `master_path.suffix.lower() == ".svg"` (script line 282): the script's
entire vector-vs-raster classification of the master image. -/
def is_svg_path (master_path : String) : Bool :=
  lowerChars (pathSuffixOfName (pathName master_path)) = ".svg".data

/-! ## Python dict semantics

`all_targets` is a Python dict keyed by output path; `dict.update` keeps
the position of an existing key (overwriting its value) and appends new
keys in iteration order. -/

/-- Insert one key/value pair with Python dict semantics: overwrite in
place if the key is present, append otherwise. -/
def dict_insert (d : List (List String × Nat)) (kv : List String × Nat) :
    List (List String × Nat) :=
  if kv.1 ∈ d.map Prod.fst then
    d.map (fun x => if x.1 = kv.1 then kv else x)
  else d ++ [kv]

/-- `d.update(new)` for a Python dict, pair by pair. -/
def dict_update (d new : List (List String × Nat)) : List (List String × Nat) :=
  new.foldl dict_insert d

/-! ## The generation pipeline -/

/-- The set of platforms whose icons must have no alpha channel
(script line 314): `{IOS_PLATFORM, "ios-legacy", "watch"}`. -/
def apple_icon_platforms : List String := [IOS_PLATFORM, "ios-legacy", "watch"]

/-- One iteration of the target-collection loop (script lines 319–324):
platforms absent from `PLATFORM_GENERATORS` are skipped; Apple platforms
additionally record their output paths in `no_alpha_paths`.  The
accumulator is `(all_targets, no_alpha_paths)`. -/
def collect_step (acc : List (List String × Nat) × List (List String))
    (platform : String) : List (List String × Nat) × List (List String) :=
  match PLATFORM_GENERATORS.lookup platform with
  | some targets =>
    ( dict_update acc.1 targets,
      if platform ∈ apple_icon_platforms then acc.2 ++ targets.map Prod.fst
      else acc.2 )
  | none => acc

/-- The collection loop over the selected platform list. -/
def collect_targets (platforms : List String) :
    List (List String × Nat) × List (List String) :=
  platforms.foldl collect_step ([], [])

/-- The decoded master image: either the SVG document (rendered per target
size) or the already-loaded, RGBA-converted, square-padded raster. -/
inductive MasterDecoded where
  | svgDoc : MasterDecoded
  | raster : Img → MasterDecoded

/-- `_svg_to_pil(svg_path, size)` (script lines 248–265), with the pyvips
thumbnail render abstracted as `svgRender`: the rendered PNG is converted
to RGBA and, if not exactly `size × size`, centered on a transparent
square canvas at offsets `((size - w) // 2, (size - h) // 2)`. -/
def svg_to_pil (svgRender : Nat → Img) (size : Nat) : Img :=
  let rendered := convert_RGBA (svgRender size)
  if rendered.width = size ∧ rendered.height = size then rendered
  else
    let ox := (size - rendered.width) / 2
    let oy := (size - rendered.height) / 2
    { width := size
      height := size
      hasAlpha := true
      px := fun x y =>
        if ox ≤ x ∧ x < ox + rendered.width ∧ oy ≤ y ∧ y < oy + rendered.height then
          rendered.px (x - ox) (y - oy)
        else transparentPx }

/-- The per-size render step of the write loop (script lines 345–348):
`_svg_to_pil(svg_path, size)` for an SVG master, `img.resize((size, size),
LANCZOS)` for a raster master (`resize` abstracts Pillow's resampler). -/
def renderAt (master : MasterDecoded) (resize : Img → Nat → Img)
    (svgRender : Nat → Img) (size : Nat) : Img :=
  match master with
  | .svgDoc => svg_to_pil svgRender size
  | .raster img => resize img size

/-- Python's `max` over a nonempty number list, as a fold. -/
def maxList (l : List Nat) : Nat := l.foldl max 0

/-- The sort of the write loop: `sorted(all_targets.items(), key=lambda kv:
kv[1])` — a stable sort by pixel size (insertion sort is stable, like
Python's sorted). -/
def sortBySize (l : List (List String × Nat)) : List (List String × Nat) :=
  List.insertionSort (fun a b => a.2 ≤ b.2) l

/-- The Windows ICO container write: path, frame sizes, and the frames in
size-list order; the source saves `ico_frames[0]` as the container's
primary frame with the rest appended (script lines 363–372). -/
structure IcoWrite where
  path : List String
  sizes : List Nat
  frames : List Img

/-- Everything one `generate_icons` run produces, apart from console text:
the single-frame files written (path, pixel size, bitmap, in write order),
the optional ICO container, the count printed by the final summary, and
the advisory flags. -/
structure RunResult where
  warned_upscale : Bool
  writes : List (List String × Nat × Img)
  ico : Option IcoWrite
  file_count : Nat
  svgMode : Bool
  master : MasterDecoded

/-- The body of `generate_icons` after the master image has been loaded
(script lines 310–379): target collection, the upscale advisory, the
sorted single-frame write loop with conditional alpha stripping, the
Windows ICO assembly, and the summary count. -/
def run_core (master : MasterDecoded) (resize : Img → Nat → Img)
    (svgRender : Nat → Img) (platformsArg : Option (List String)) : RunResult :=
  let platforms := platformsArg.getD DEFAULT_PLATFORMS
  let collected := collect_targets platforms
  let all_targets := collected.1
  let no_alpha_paths := collected.2
  let warned_upscale :=
    match master with
    | .svgDoc => false
    | .raster img =>
      let all_sizes := all_targets.map Prod.snd
      let all_sizes :=
        if "windows" ∈ platforms then
          all_sizes ++ get_windows_ico_path_and_sizes.2
        else all_sizes
      if all_sizes.isEmpty then false
      else decide (img.width < maxList all_sizes)
  let writes :=
    (sortBySize all_targets).map (fun t =>
      let resized := renderAt master resize svgRender t.2
      (t.1, t.2,
        if t.1 ∈ no_alpha_paths then strip_alpha resized else resized))
  let ico :=
    if "windows" ∈ platforms then
      some { path := get_windows_ico_path_and_sizes.1
             sizes := get_windows_ico_path_and_sizes.2
             frames := get_windows_ico_path_and_sizes.2.map
               (renderAt master resize svgRender) }
    else none
  let file_count := all_targets.length + (if "windows" ∈ platforms then 1 else 0)
  { warned_upscale := warned_upscale
    writes := writes
    ico := ico
    file_count := file_count
    svgMode := match master with | .svgDoc => true | .raster _ => false
    master := master }

/-- The spec's error taxonomy for the failures `generate_icons` raises:
`FileNotFoundError` and a Pillow decode failure are `UnreadableMaster`;
the `RuntimeError` for SVG input without pyvips is
`MissingOptionalCapability`. -/
inductive IconError where
  | UnreadableMaster : IconError
  | MissingOptionalCapability : IconError
deriving Repr, DecidableEq

/-- The filesystem and environment facts `generate_icons` consults:
whether `master_path.is_file()` holds, what `Image.open(master_path)`
returns (`none` when the bytes are undecodable), and whether
`import pyvips` succeeds. -/
structure Env where
  master_is_file : Bool
  decoded : Option Img
  pyvips_available : Bool

/-- `generate_icons(master_path, project_root, platforms)` (script lines
278–379).  A raised exception is an `Except.error`; no file or directory
is created on any error path.  For a raster master the image is converted
to RGBA and, when non-square, padded to a centered transparent square
before any target is processed. -/
def generate_icons (env : Env) (master_path : String)
    (resize : Img → Nat → Img) (svgRender : Nat → Img)
    (platformsArg : Option (List String)) : Except IconError RunResult :=
  if env.master_is_file = false then .error .UnreadableMaster
  else if is_svg_path master_path then
    if env.pyvips_available = false then .error .MissingOptionalCapability
    else .ok (run_core .svgDoc resize svgRender platformsArg)
  else
    match env.decoded with
    | none => .error .UnreadableMaster
    | some im0 =>
      let img1 := convert_RGBA im0
      let img :=
        if img1.width ≠ img1.height then pad_to_square img1 else img1
      .ok (run_core (.raster img) resize svgRender platformsArg)

/-! ## The command-line driver -/

/-- Python's `str.isspace` on one character — the set `str.strip()`
removes: the ASCII whitespace and separator controls U+0009–U+000D and
U+001C–U+001F, the space, NEL (U+0085), NBSP (U+00A0), Ogham space
(U+1680), the Unicode space separators U+2000–U+200A, the line and
paragraph separators (U+2028, U+2029), narrow NBSP (U+202F), the
mathematical space (U+205F), and the ideographic space (U+3000). -/
def pyIsSpace (c : Char) : Bool :=
  (9 ≤ c.toNat ∧ c.toNat ≤ 13) ∨ (28 ≤ c.toNat ∧ c.toNat ≤ 32) ∨
  c.toNat = 133 ∨ c.toNat = 160 ∨ c.toNat = 5760 ∨
  (8192 ≤ c.toNat ∧ c.toNat ≤ 8202) ∨ c.toNat = 8232 ∨ c.toNat = 8233 ∨
  c.toNat = 8239 ∨ c.toNat = 8287 ∨ c.toNat = 12288

/-- `str.strip()` (Python whitespace removed at both ends) followed by
`str.lower`, on one comma-separated `--platform` item. -/
def stripLower (s : List Char) : List Char :=
  lowerChars (((s.dropWhile pyIsSpace).reverse.dropWhile pyIsSpace).reverse)

/-- `[p.strip().lower() for p in args.platform.split(",")]`
(script line 408). -/
def parse_platform_arg (s : String) : List String :=
  (s.data.splitOn ',').map (fun p => String.mk (stripLower p))

/-- What a `main` invocation does: abort with the `argparse` usage error
(`UnknownPlatform`) or run `generate_icons`. -/
inductive MainResult where
  | usage_error : MainResult
  | ran : Except IconError RunResult → MainResult

/-- The single-frame paths a `main` invocation writes: none on a usage
error or a generation error. -/
def main_written_paths : MainResult → List (List String)
  | .usage_error => []
  | .ran (.error _) => []
  | .ran (.ok r) => r.writes.map (fun t => t.1)

/-- `main` (script lines 382–413): `platforms` stays `None` unless
`args.platform` is truthy (`if args.platform:` at line 407 — absent or an
empty string leaves the default set); a truthy argument is split at
commas, stripped and lowercased, and any resulting name outside
`ALL_PLATFORMS` aborts with the `argparse` usage error before
`generate_icons` runs. -/
def main_run (env : Env) (master_path : String) (resize : Img → Nat → Img)
    (svgRender : Nat → Img) (platformArg : Option String) : MainResult :=
  match platformArg with
  | none => .ran (generate_icons env master_path resize svgRender none)
  | some s =>
    if s = "" then .ran (generate_icons env master_path resize svgRender none)
    else
      let platforms := parse_platform_arg s
      let invalid := platforms.filter (fun p => ¬ p ∈ ALL_PLATFORMS)
      if invalid.isEmpty then
        .ran (generate_icons env master_path resize svgRender (some platforms))
      else .usage_error

/-! ## Catalog facts -/

/-- No platform name repeats in the catalog. -/
theorem all_platforms_nodup : ALL_PLATFORMS.Nodup := by decide

/-- Every output path in the whole catalog is distinct: the concatenation
of all platforms' PNG path lists has no duplicate. -/
theorem catalog_flat_paths_nodup : (ALL_PLATFORMS.flatMap catalogPaths).Nodup := by
  decide

/-- Each single platform's PNG path list has no duplicate. -/
theorem catalogPaths_nodup : ∀ p ∈ ALL_PLATFORMS, (catalogPaths p).Nodup :=
  (List.nodup_flatMap.mp catalog_flat_paths_nodup).1

/-- Across the catalog order, distinct platforms' path lists are disjoint. -/
theorem catalogPaths_pairwise :
    List.Pairwise (Function.onFun List.Disjoint catalogPaths) ALL_PLATFORMS :=
  (List.nodup_flatMap.mp catalog_flat_paths_nodup).2

/-- Two distinct catalog platforms share no output path. -/
theorem catalogPaths_disjoint {p q : String} (hp : p ∈ ALL_PLATFORMS)
    (hq : q ∈ ALL_PLATFORMS) (hne : p ≠ q) :
    (catalogPaths p).Disjoint (catalogPaths q) :=
  List.Pairwise.forall (fun _ _ h => h.symm) catalogPaths_pairwise hp hq hne

/-- A platform selection as the spec means it: a set of platform names
drawn from the catalog (no repeats, all names known). -/
def goodSelection (sel : List String) : Prop :=
  sel.Nodup ∧ ∀ p ∈ sel, p ∈ ALL_PLATFORMS

instance : DecidablePred goodSelection := fun sel => by
  unfold goodSelection; infer_instance

/-- The PNG targets a selection draws from the catalog, platform order
preserved. -/
def selectionTargets (sel : List String) : List (List String × Nat) :=
  sel.flatMap catalogTargets

/-- For a selection of distinct catalog platforms, all drawn output paths
are pairwise distinct. -/
theorem selection_keys_nodup {sel : List String} (h : goodSelection sel) :
    ((selectionTargets sel).map Prod.fst).Nodup := by
  rw [selectionTargets, List.map_flatMap]
  apply List.nodup_flatMap.mpr
  refine ⟨fun p hp => catalogPaths_nodup p (h.2 p hp), ?_⟩
  exact List.Pairwise.imp_of_mem
    (fun ha hb hne => catalogPaths_disjoint (h.2 _ ha) (h.2 _ hb) hne) h.1

/-! ## Dict and collection-loop lemmas -/

/-- Inserting an absent key appends it. -/
theorem dict_insert_of_not_mem {d : List (List String × Nat)}
    {kv : List String × Nat} (h : kv.1 ∉ d.map Prod.fst) :
    dict_insert d kv = d ++ [kv] := by
  unfold dict_insert
  rw [if_neg h]

/-- `dict.update` with fresh, repeat-free keys is plain concatenation. -/
theorem dict_update_of_disjoint (new : List (List String × Nat)) :
    ∀ d, (new.map Prod.fst).Nodup →
      (∀ k ∈ new.map Prod.fst, k ∉ d.map Prod.fst) →
      dict_update d new = d ++ new := by
  induction new with
  | nil => intro d _ _; simp [dict_update]
  | cons kv rest ih =>
    intro d hn hdisj
    have h1 : kv.1 ∉ d.map Prod.fst := hdisj kv.1 (by simp)
    have step : dict_update d (kv :: rest) = dict_update (d ++ [kv]) rest := by
      simp [dict_update, dict_insert_of_not_mem h1]
    have hn2 : (kv.1 :: rest.map Prod.fst).Nodup := by
      rw [List.map_cons] at hn; exact hn
    have hn1 : kv.1 ∉ rest.map Prod.fst := (List.nodup_cons.mp hn2).1
    have hrest : (rest.map Prod.fst).Nodup := (List.nodup_cons.mp hn2).2
    rw [step, ih (d ++ [kv]) hrest ?_]
    · simp
    · intro k hk
      simp only [List.map_append, List.mem_append, List.map_cons,
        List.map_nil, List.mem_cons, List.not_mem_nil, or_false]
      rintro (hkd | hkkv)
      · exact hdisj k (by simp [hk]) hkd
      · exact hn1 (hkkv ▸ hk)

/-- Every Apple platform has a catalog generator. -/
theorem apple_subset_generators :
    ∀ p ∈ apple_icon_platforms, (PLATFORM_GENERATORS.lookup p).isSome := by
  decide

/-- The `no_alpha_paths` set the collection loop accumulates, written
directly: the paths of the selected Apple platforms that have a catalog
generator. -/
def no_alpha_of (sel : List String) : List (List String) :=
  sel.flatMap (fun p =>
    if (PLATFORM_GENERATORS.lookup p).isSome ∧ p ∈ apple_icon_platforms then
      catalogPaths p
    else [])

/-- The fold computing `no_alpha_paths` equals its closed form. -/
theorem collect_foldl_snd (sel : List String) :
    ∀ acc, (sel.foldl collect_step acc).2 = acc.2 ++ no_alpha_of sel := by
  induction sel with
  | nil => intro acc; simp [no_alpha_of]
  | cons p rest ih =>
    intro acc
    simp only [List.foldl_cons]
    rw [ih]
    have hna : no_alpha_of (p :: rest) =
        (if (PLATFORM_GENERATORS.lookup p).isSome ∧ p ∈ apple_icon_platforms then
          catalogPaths p else []) ++ no_alpha_of rest := by
      simp [no_alpha_of]
    rw [hna]
    unfold collect_step
    cases hl : PLATFORM_GENERATORS.lookup p with
    | none => simp [hl]
    | some targets =>
      have hct : catalogPaths p = targets.map Prod.fst := by
        simp [catalogPaths, catalogTargets, hl]
      by_cases happle : p ∈ apple_icon_platforms <;>
        simp [hl, happle, hct]

/-- The fold computing `all_targets` is plain concatenation of the selected
platforms' target lists, provided all drawn keys are distinct. -/
theorem collect_foldl_fst (sel : List String) :
    ∀ acc : List (List String × Nat) × List (List String),
      ((acc.1 ++ selectionTargets sel).map Prod.fst).Nodup →
      (sel.foldl collect_step acc).1 = acc.1 ++ selectionTargets sel := by
  induction sel with
  | nil => intro acc _; simp [selectionTargets]
  | cons p rest ih =>
    intro acc hnd
    have hsel : selectionTargets (p :: rest) =
        catalogTargets p ++ selectionTargets rest := by
      simp [selectionTargets]
    simp only [List.foldl_cons]
    cases hl : PLATFORM_GENERATORS.lookup p with
    | none =>
      have hct : catalogTargets p = [] := by simp [catalogTargets, hl]
      have hstep : collect_step acc p = acc := by
        unfold collect_step; rw [hl]
      rw [hstep, ih acc ?_, hsel, hct]
      · simp
      · rw [hsel, hct] at hnd
        simpa using hnd
    | some targets =>
      have hct : catalogTargets p = targets := by simp [catalogTargets, hl]
      rw [hsel, hct] at hnd
      simp only [List.map_append, List.append_assoc] at hnd
      have hkeys := List.nodup_append.mp hnd
      have htn : (targets.map Prod.fst).Nodup :=
        (List.nodup_append.mp hkeys.2.1).1
      have hfresh : ∀ k ∈ targets.map Prod.fst, k ∉ acc.1.map Prod.fst := by
        intro k hk hka
        exact hkeys.2.2 hka (by simp [hk])
      have hstep : (collect_step acc p).1 = acc.1 ++ targets := by
        unfold collect_step
        rw [hl]
        exact dict_update_of_disjoint targets acc.1 htn hfresh
      have hstep2 : collect_step acc p =
          ((collect_step acc p).1, (collect_step acc p).2) := rfl
      rw [hstep2, hstep]
      rw [ih _ ?_, hsel, hct]
      · simp
      · simp only [List.map_append, List.append_assoc]
        simpa using hnd

/-- For a selection of distinct catalog platforms, `all_targets` is the
concatenation of the selected platforms' catalog target lists. -/
theorem collect_targets_fst {sel : List String} (h : goodSelection sel) :
    (collect_targets sel).1 = selectionTargets sel := by
  have := collect_foldl_fst sel ([], []) (by simpa using selection_keys_nodup h)
  simpa [collect_targets] using this

/-- `no_alpha_paths` always equals its closed form. -/
theorem collect_targets_snd (sel : List String) :
    (collect_targets sel).2 = no_alpha_of sel := by
  have := collect_foldl_snd sel ([], [])
  simpa [collect_targets] using this

/-- A path is in `no_alpha_paths` exactly when some selected Apple platform
emits it. -/
theorem mem_no_alpha_iff {sel : List String} {x : List String} :
    x ∈ no_alpha_of sel ↔
      ∃ p, p ∈ sel ∧ p ∈ apple_icon_platforms ∧ x ∈ catalogPaths p := by
  unfold no_alpha_of
  rw [List.mem_flatMap]
  constructor
  · rintro ⟨p, hp, hx⟩
    by_cases hc : (PLATFORM_GENERATORS.lookup p).isSome ∧ p ∈ apple_icon_platforms
    · rw [if_pos hc] at hx
      exact ⟨p, hp, hc.2, hx⟩
    · rw [if_neg hc] at hx
      cases hx
  · rintro ⟨p, hp, happle, hx⟩
    refine ⟨p, hp, ?_⟩
    rw [if_pos ⟨apple_subset_generators p happle, happle⟩]
    exact hx

/-! ## Projections of the run -/

/-- The write loop of `run_core`, read off the definition. -/
theorem run_core_writes (master : MasterDecoded) (resize : Img → Nat → Img)
    (svgRender : Nat → Img) (pArg : Option (List String)) :
    (run_core master resize svgRender pArg).writes =
      (sortBySize (collect_targets (pArg.getD DEFAULT_PLATFORMS)).1).map (fun t =>
        (t.1, t.2,
          if t.1 ∈ (collect_targets (pArg.getD DEFAULT_PLATFORMS)).2 then
            strip_alpha (renderAt master resize svgRender t.2)
          else renderAt master resize svgRender t.2)) := rfl

/-- The summary count of `run_core`, read off the definition. -/
theorem run_core_file_count (master : MasterDecoded) (resize : Img → Nat → Img)
    (svgRender : Nat → Img) (pArg : Option (List String)) :
    (run_core master resize svgRender pArg).file_count =
      (collect_targets (pArg.getD DEFAULT_PLATFORMS)).1.length +
        (if "windows" ∈ pArg.getD DEFAULT_PLATFORMS then 1 else 0) := rfl

/-- The ICO write of `run_core`, read off the definition. -/
theorem run_core_ico (master : MasterDecoded) (resize : Img → Nat → Img)
    (svgRender : Nat → Img) (pArg : Option (List String)) :
    (run_core master resize svgRender pArg).ico =
      (if "windows" ∈ pArg.getD DEFAULT_PLATFORMS then
        some { path := get_windows_ico_path_and_sizes.1
               sizes := get_windows_ico_path_and_sizes.2
               frames := get_windows_ico_path_and_sizes.2.map
                 (renderAt master resize svgRender) }
      else none) := rfl

/-- The stored master of `run_core`, read off the definition. -/
theorem run_core_master (master : MasterDecoded) (resize : Img → Nat → Img)
    (svgRender : Nat → Img) (pArg : Option (List String)) :
    (run_core master resize svgRender pArg).master = master := rfl

/-- The upscale advisory is never set for an SVG master. -/
theorem run_core_warned_svg (resize : Img → Nat → Img)
    (svgRender : Nat → Img) (pArg : Option (List String)) :
    (run_core .svgDoc resize svgRender pArg).warned_upscale = false := rfl

/-- The upscale advisory for a raster master, read off the definition. -/
theorem run_core_warned_raster (img : Img) (resize : Img → Nat → Img)
    (svgRender : Nat → Img) (pArg : Option (List String)) :
    (run_core (.raster img) resize svgRender pArg).warned_upscale =
      (let platforms := pArg.getD DEFAULT_PLATFORMS
       let all_sizes := (collect_targets platforms).1.map Prod.snd
       let all_sizes :=
         if "windows" ∈ platforms then
           all_sizes ++ get_windows_ico_path_and_sizes.2
         else all_sizes
       if all_sizes.isEmpty then false
       else decide (img.width < maxList all_sizes)) := rfl

/-- Conversion to RGBA always yields an image with an alpha channel. -/
theorem convert_RGBA_hasAlpha (i : Img) : (convert_RGBA i).hasAlpha = true := by
  unfold convert_RGBA
  split
  · assumption
  · rfl

/-- A successful `generate_icons` run is a `run_core` run on the decoded
master, and a decoded raster master always carries an alpha channel. -/
theorem generate_icons_ok {env : Env} {mp : String} {resize : Img → Nat → Img}
    {svgRender : Nat → Img} {pArg : Option (List String)} {r : RunResult}
    (h : generate_icons env mp resize svgRender pArg = .ok r) :
    ∃ m, r = run_core m resize svgRender pArg ∧
      (∀ img, m = MasterDecoded.raster img → img.hasAlpha = true) := by
  unfold generate_icons at h
  split at h
  · cases h
  · split at h
    · split at h
      · cases h
      · refine ⟨.svgDoc, ?_, ?_⟩
        · cases h
          rfl
        · intro img him
          cases him
    · split at h
      · cases h
      · rename_i im0 _
        simp only [] at h
        injection h with h
        refine ⟨_, h.symm, ?_⟩
        intro img him
        injection him with him
        rw [← him]
        split
        · rfl
        · exact convert_RGBA_hasAlpha im0

/-- An SVG master keeps every rendered frame's alpha channel. -/
theorem svg_to_pil_hasAlpha (sr : Nat → Img) (s : Nat) :
    (svg_to_pil sr s).hasAlpha = true := by
  unfold svg_to_pil
  dsimp only
  split
  · exact convert_RGBA_hasAlpha _
  · rfl

/-- Rendering preserves the alpha channel: for a mode-preserving resampler
and an RGBA raster master (or an SVG master), every rendered bitmap is
RGBA. -/
theorem renderAt_hasAlpha {m : MasterDecoded} {resize : Img → Nat → Img}
    {svgRender : Nat → Img}
    (hres : ∀ i s, (resize i s).hasAlpha = i.hasAlpha)
    (hm : ∀ img, m = MasterDecoded.raster img → img.hasAlpha = true)
    (s : Nat) : (renderAt m resize svgRender s).hasAlpha = true := by
  cases m with
  | svgDoc => exact svg_to_pil_hasAlpha _ _
  | raster img =>
    show (resize img s).hasAlpha = true
    rw [hres, hm img rfl]

/-! ## Concrete fixtures used by the witnesses -/

/-- A square 512×512 RGBA test master. -/
def imgSq : Img :=
  { width := 512, height := 512, hasAlpha := true, px := fun _ _ => ⟨10, 20, 30, 128⟩ }

/-- A mode- and size-correct stand-in for Pillow's LANCZOS resampler. -/
def resample0 : Img → Nat → Img := fun i s =>
  { width := s, height := s, hasAlpha := i.hasAlpha, px := i.px }

/-- A stand-in for the pyvips SVG thumbnail renderer. -/
def svgRender0 : Nat → Img := fun s =>
  { width := s, height := s, hasAlpha := true, px := fun _ _ => transparentPx }

/-- An environment with a readable, decodable square raster master. -/
def envSq : Env :=
  { master_is_file := true, decoded := some imgSq, pyvips_available := false }

/-! ## Claim C2 -/

/-- Claim C2: whenever the windows platform is selected, exactly one
multi-frame container is written, at `windows/runner/resources/app_icon.ico`,
assembled from exactly the frame sizes 16, 20, 24, 30, 32, 36, 40, 48, 60,
64, 72, 80, 96, 256 in ascending order, with the smallest frame (16) as the
container's primary/default frame (the source saves `ico_frames[0]`, the
16 px render, as the base image of the container). -/
theorem C2_windows_ico (env : Env) (mp : String) (resize : Img → Nat → Img)
    (svgRender : Nat → Img) (pArg : Option (List String)) (r : RunResult)
    (hrun : generate_icons env mp resize svgRender pArg = .ok r)
    (hwin : "windows" ∈ pArg.getD DEFAULT_PLATFORMS) :
    ∃ w, r.ico = some w ∧
      w.path = ["windows", "runner", "resources", "app_icon.ico"] ∧
      w.sizes = [16, 20, 24, 30, 32, 36, 40, 48, 60, 64, 72, 80, 96, 256] ∧
      List.Sorted (· ≤ ·) w.sizes ∧
      w.sizes.head? = some 16 ∧
      (∀ s ∈ w.sizes, 16 ≤ s) ∧
      w.frames = w.sizes.map (renderAt r.master resize svgRender) ∧
      w.frames.head? = some (renderAt r.master resize svgRender 16) := by
  obtain ⟨m, hm, -⟩ := generate_icons_ok hrun
  subst hm
  rw [run_core_ico, if_pos hwin, run_core_master]
  refine ⟨_, rfl, rfl, rfl, ?_, rfl, ?_, rfl, rfl⟩
  · show List.Sorted (· ≤ ·) [16, 20, 24, 30, 32, 36, 40, 48, 60, 64, 72, 80, 96, 256]
    decide
  · show ∀ s ∈ [16, 20, 24, 30, 32, 36, 40, 48, 60, 64, 72, 80, 96, 256], (16 : Nat) ≤ s
    decide

/-- The run on the square raster fixture with only the windows platform. -/
def runWin : RunResult :=
  run_core (.raster imgSq) resample0 svgRender0 (some ["windows"])

/-- Witness for C2 at a concrete environment and platform selection. -/
theorem C2_windows_ico_witness :
    ∃ w, runWin.ico = some w ∧
      w.path = ["windows", "runner", "resources", "app_icon.ico"] ∧
      w.sizes = [16, 20, 24, 30, 32, 36, 40, 48, 60, 64, 72, 80, 96, 256] ∧
      List.Sorted (· ≤ ·) w.sizes ∧
      w.sizes.head? = some 16 ∧
      (∀ s ∈ w.sizes, 16 ≤ s) ∧
      w.frames = w.sizes.map (renderAt runWin.master resample0 svgRender0) ∧
      w.frames.head? = some (renderAt runWin.master resample0 svgRender0 16) :=
  C2_windows_ico envSq "master.png" resample0 svgRender0 (some ["windows"])
    runWin rfl (by decide)

/-! ## Claim C3 -/

/-- Claim C3: for a raster master with `width ≠ height`, the normalization
step of `generate_icons` pads to a `max(width,height)` square: the result
is `max × max`, fully transparent outside the pasted region, and the
original sits at the integer-floor offsets
`((max-width)/2, (max-height)/2)`. -/
theorem C3_normalize_square (img : Img) (h : img.width ≠ img.height) :
    (if img.width ≠ img.height then pad_to_square img else img) = pad_to_square img ∧
    (pad_to_square img).width = max img.width img.height ∧
    (pad_to_square img).height = max img.width img.height ∧
    (∀ x y,
      ¬ ((max img.width img.height - img.width) / 2 ≤ x ∧
         x < (max img.width img.height - img.width) / 2 + img.width ∧
         (max img.width img.height - img.height) / 2 ≤ y ∧
         y < (max img.width img.height - img.height) / 2 + img.height) →
      (pad_to_square img).px x y = transparentPx) ∧
    (∀ dx dy, dx < img.width → dy < img.height →
      (pad_to_square img).px
        ((max img.width img.height - img.width) / 2 + dx)
        ((max img.width img.height - img.height) / 2 + dy) = img.px dx dy) := by
  refine ⟨if_pos h, rfl, rfl, ?_, ?_⟩
  · intro x y hout
    show (if _ then _ else _) = transparentPx
    rw [if_neg hout]
  · intro dx dy hdx hdy
    show (if _ then _ else _) = img.px dx dy
    rw [if_pos ⟨Nat.le_add_right _ _, by omega, Nat.le_add_right _ _, by omega⟩,
      Nat.add_sub_cancel_left, Nat.add_sub_cancel_left]

/-- The 800×600 test master of the spec's normalization example. -/
def img800 : Img :=
  { width := 800, height := 600, hasAlpha := true, px := fun _ _ => ⟨1, 2, 3, 4⟩ }

/-- Witness for C3 at the spec's own 800×600 example: the canvas is 800×800
and the paste offsets are `(0, 100)`. -/
theorem C3_normalize_square_witness :
    ((max img800.width img800.height - img800.width) / 2 = 0 ∧
     (max img800.width img800.height - img800.height) / 2 = 100 ∧
     max img800.width img800.height = 800) ∧
    ((if img800.width ≠ img800.height then pad_to_square img800 else img800) =
        pad_to_square img800 ∧
      (pad_to_square img800).width = max img800.width img800.height ∧
      (pad_to_square img800).height = max img800.width img800.height ∧
      (∀ x y,
        ¬ ((max img800.width img800.height - img800.width) / 2 ≤ x ∧
           x < (max img800.width img800.height - img800.width) / 2 + img800.width ∧
           (max img800.width img800.height - img800.height) / 2 ≤ y ∧
           y < (max img800.width img800.height - img800.height) / 2 + img800.height) →
        (pad_to_square img800).px x y = transparentPx) ∧
      (∀ dx dy, dx < img800.width → dy < img800.height →
        (pad_to_square img800).px
          ((max img800.width img800.height - img800.width) / 2 + dx)
          ((max img800.width img800.height - img800.height) / 2 + dy) =
          img800.px dx dy)) :=
  ⟨by refine ⟨by decide, by decide, by decide⟩,
   C3_normalize_square img800 (by decide)⟩

/-! ## Claim C5 -/

/-- Claim C5 counterexample: at the mdpi density the standard launcher icon
is 48 px and the foreground layer is 108 px; 1.5 × 48 = 72 ≠ 108, so the
foreground is not 1.5× the standard launcher icon. -/
theorem C5_foreground_not_1_5x :
    List.lookup (["android", "app", "src", "main", "res", "mipmap-mdpi",
      "ic_launcher.png"]) get_android_icons = some 48 ∧
    List.lookup (["android", "app", "src", "main", "res", "mipmap-mdpi",
      "ic_launcher_foreground.png"]) get_android_icons = some 108 ∧
    3 * 48 / 2 = 72 ∧ (108 : Nat) ≠ 72 := by
  decide

/-- Claim C5 as amended: the standard launcher icons (`ic_launcher.png` and
`ic_launcher_round.png`) are generated at the dp-scaled sizes 48, 72, 96,
144, 192 across the five densities, and at each density the foreground
layer is 2.25× (9/4, i.e. 108 dp against 48 dp — 1.5× the 72 dp visible
area, not 1.5× the launcher icon) the standard launcher icon size. -/
theorem C5_android_sizes :
    (["mipmap-mdpi", "mipmap-hdpi", "mipmap-xhdpi", "mipmap-xxhdpi",
      "mipmap-xxxhdpi"].map (fun f =>
        List.lookup (["android", "app", "src", "main", "res", f,
          "ic_launcher.png"]) get_android_icons) =
      [some 48, some 72, some 96, some 144, some 192]) ∧
    (["mipmap-mdpi", "mipmap-hdpi", "mipmap-xhdpi", "mipmap-xxhdpi",
      "mipmap-xxxhdpi"].map (fun f =>
        List.lookup (["android", "app", "src", "main", "res", f,
          "ic_launcher_round.png"]) get_android_icons) =
      [some 48, some 72, some 96, some 144, some 192]) ∧
    (["mipmap-mdpi", "mipmap-hdpi", "mipmap-xhdpi", "mipmap-xxhdpi",
      "mipmap-xxxhdpi"].map (fun f =>
        List.lookup (["android", "app", "src", "main", "res", f,
          "ic_launcher_foreground.png"]) get_android_icons) =
      [some (48 * 9 / 4), some (72 * 9 / 4), some (96 * 9 / 4),
       some (144 * 9 / 4), some (192 * 9 / 4)]) := by
  decide

/-! ## Claim C1 -/

/-- Claim C1: for every target of a selected platform that requires opacity
(`ios`, `ios-legacy`, `watch`), the bitmap written to that target's path is
`strip_alpha` of the rendered bitmap — the composite onto an opaque white
background with the bitmap's own alpha channel as the blend mask — and so
has no alpha channel; every target of any other selected platform is
written as rendered, with its alpha channel preserved. -/
theorem C1_opaque_targets (env : Env) (mp : String) (resize : Img → Nat → Img)
    (svgRender : Nat → Img) (sel : List String) (r : RunResult)
    (hres : ∀ i s, (resize i s).hasAlpha = i.hasAlpha)
    (hgood : goodSelection sel)
    (hrun : generate_icons env mp resize svgRender (some sel) = .ok r) :
    ∀ p ∈ sel, ∀ t ∈ catalogTargets p,
      (p ∈ apple_icon_platforms →
        (t.1, t.2, strip_alpha (renderAt r.master resize svgRender t.2)) ∈ r.writes ∧
        (strip_alpha (renderAt r.master resize svgRender t.2)).hasAlpha = false) ∧
      (p ∉ apple_icon_platforms →
        (t.1, t.2, renderAt r.master resize svgRender t.2) ∈ r.writes ∧
        (renderAt r.master resize svgRender t.2).hasAlpha = true) := by
  obtain ⟨m, hm, hraster⟩ := generate_icons_ok hrun
  subst hm
  intro p hp t ht
  rw [run_core_writes, run_core_master]
  simp only [Option.getD_some]
  have hmem : t ∈ sortBySize (collect_targets sel).1 := by
    unfold sortBySize
    rw [collect_targets_fst hgood]
    exact (List.mem_insertionSort _).mpr (List.mem_flatMap.mpr ⟨p, hp, ht⟩)
  have hpath : t.1 ∈ (collect_targets sel).2 ↔ p ∈ apple_icon_platforms := by
    rw [collect_targets_snd, mem_no_alpha_iff]
    constructor
    · rintro ⟨q, hq, hqa, hxq⟩
      by_cases hpq : p = q
      · exact hpq ▸ hqa
      · exact ((catalogPaths_disjoint (hgood.2 p hp) (hgood.2 q hq) hpq)
          (List.mem_map_of_mem Prod.fst ht) hxq).elim
    · intro hpa
      exact ⟨p, hp, hpa, List.mem_map_of_mem Prod.fst ht⟩
  constructor
  · intro hpa
    refine ⟨List.mem_map.mpr ⟨t, hmem, ?_⟩, rfl⟩
    dsimp only
    rw [if_pos (hpath.mpr hpa)]
  · intro hpa
    refine ⟨List.mem_map.mpr ⟨t, hmem, ?_⟩, renderAt_hasAlpha hres hraster t.2⟩
    dsimp only
    rw [if_neg (fun hx => hpa (hpath.mp hx))]

/-- The run on the square raster fixture selecting ios and linux. -/
def runC1 : RunResult :=
  run_core (.raster imgSq) resample0 svgRender0 (some ["ios", "linux"])

/-- The first iOS catalog target, used as a concrete opaque-required
target. -/
def tgt0 : List String × Nat := (ios_appicon_dir ++ ["Icon-App-20x20@1x.png"], 20)

/-- Witness for C1: a concrete run over ios and linux, checked at the
first iOS target. -/
theorem C1_opaque_targets_witness :
    ("ios" ∈ apple_icon_platforms →
      (tgt0.1, tgt0.2, strip_alpha (renderAt runC1.master resample0 svgRender0 tgt0.2))
          ∈ runC1.writes ∧
        (strip_alpha (renderAt runC1.master resample0 svgRender0 tgt0.2)).hasAlpha
          = false) ∧
    ("ios" ∉ apple_icon_platforms →
      (tgt0.1, tgt0.2, renderAt runC1.master resample0 svgRender0 tgt0.2)
          ∈ runC1.writes ∧
        (renderAt runC1.master resample0 svgRender0 tgt0.2).hasAlpha = true) :=
  C1_opaque_targets envSq "master.png" resample0 svgRender0 ["ios", "linux"] runC1
    (fun _ _ => rfl) (by decide) rfl "ios" (by decide) tgt0 (by decide)

/-! ## Claim C6 -/

/-- The catalog target count of one platform, the windows multi-frame
container counting as exactly one file. -/
def catalogTargetCount (p : String) : Nat :=
  if p = "windows" then 1 else (catalogTargets p).length

/-- `windows` has no entry in the PNG registry. -/
theorem catalogTargets_windows : catalogTargets "windows" = [] := rfl

/-- The sum of catalog counts over a platform list, split into PNG targets
and occurrences of the windows container. -/
theorem sum_catalogTargetCount (sel : List String) :
    (sel.map catalogTargetCount).sum =
      (sel.flatMap catalogTargets).length + sel.count "windows" := by
  induction sel with
  | nil => rfl
  | cons p rest ih =>
    simp only [List.map_cons, List.sum_cons, List.flatMap_cons, List.length_append,
      List.count_cons]
    rw [ih]
    by_cases hw : p = "windows"
    · subst hw
      simp [catalogTargetCount, catalogTargets_windows]
      omega
    · have hbeq : ("windows" == p) = false := by
        simpa using fun h => hw h.symm
      simp [catalogTargetCount, hw, hbeq]
      omega

/-- In a duplicate-free selection, windows occurs once if selected. -/
theorem count_windows_good {sel : List String} (h : goodSelection sel) :
    sel.count "windows" = if "windows" ∈ sel then 1 else 0 := by
  by_cases hm : "windows" ∈ sel
  · rw [if_pos hm]
    exact List.count_eq_one_of_mem h.1 hm
  · rw [if_neg hm]
    exact List.count_eq_zero_of_not_mem hm

/-- Claim C6: for every selection of distinct catalog platforms, the number
of files written (single-frame writes plus the ICO container when present)
equals the sum of the selected platforms' catalog target counts, with the
windows container counting as one file — and that sum is exactly the count
printed in the final summary (`file_count`). -/
theorem C6_file_count (env : Env) (mp : String) (resize : Img → Nat → Img)
    (svgRender : Nat → Img) (sel : List String) (r : RunResult)
    (hgood : goodSelection sel)
    (hrun : generate_icons env mp resize svgRender (some sel) = .ok r) :
    r.file_count = (sel.map catalogTargetCount).sum ∧
    r.writes.length + (match r.ico with | some _ => 1 | none => 0) =
      r.file_count := by
  obtain ⟨m, hm, -⟩ := generate_icons_ok hrun
  subst hm
  rw [run_core_file_count, run_core_writes, run_core_ico]
  simp only [Option.getD_some]
  constructor
  · rw [sum_catalogTargetCount, count_windows_good hgood, collect_targets_fst hgood]
    rfl
  · rw [List.length_map]
    have hlen : (sortBySize (collect_targets sel).1).length =
        (collect_targets sel).1.length := by
      unfold sortBySize
      exact List.length_insertionSort _ _
    rw [hlen]
    by_cases hw : "windows" ∈ sel
    · rw [if_pos hw, if_pos hw]
    · rw [if_neg hw, if_neg hw]

/-- The run on the square raster fixture selecting android, windows and
store. -/
def runC6 : RunResult :=
  run_core (.raster imgSq) resample0 svgRender0 (some ["android", "windows", "store"])

/-- Witness for C6: android (15) + windows (1) + store (2) files. -/
theorem C6_file_count_witness :
    (runC6.file_count =
      ((["android", "windows", "store"] : List String).map catalogTargetCount).sum ∧
     runC6.writes.length + (match runC6.ico with | some _ => 1 | none => 0) =
       runC6.file_count) ∧
    ((["android", "windows", "store"] : List String).map catalogTargetCount).sum = 18 :=
  ⟨C6_file_count envSq "master.png" resample0 svgRender0
      ["android", "windows", "store"] runC6 (by decide) rfl,
   by decide⟩

/-! ## Claim C9 -/

/-- Claim C9: for every selection of distinct catalog platforms, the
single-frame output paths written in one run are pairwise distinct; in
particular no two write entries map the same output path to different
pixel sizes. -/
theorem C9_unique_paths (env : Env) (mp : String) (resize : Img → Nat → Img)
    (svgRender : Nat → Img) (sel : List String) (r : RunResult)
    (hgood : goodSelection sel)
    (hrun : generate_icons env mp resize svgRender (some sel) = .ok r) :
    (r.writes.map (fun e => e.1)).Nodup ∧
    ∀ e1 ∈ r.writes, ∀ e2 ∈ r.writes, e1.1 = e2.1 → e1.2.1 = e2.2.1 := by
  obtain ⟨m, hm, -⟩ := generate_icons_ok hrun
  subst hm
  have hnd : ((run_core m resize svgRender (some sel)).writes.map
      (fun e => e.1)).Nodup := by
    rw [run_core_writes]
    simp only [Option.getD_some, List.map_map]
    have hcomp : ((fun e : List String × Nat × Img => e.1) ∘
        (fun t : List String × Nat =>
          (t.1, t.2,
            if t.1 ∈ (collect_targets sel).2 then
              strip_alpha (renderAt m resize svgRender t.2)
            else renderAt m resize svgRender t.2))) = Prod.fst := rfl
    rw [hcomp]
    unfold sortBySize
    rw [collect_targets_fst hgood]
    exact ((List.perm_insertionSort _ _).map Prod.fst).nodup_iff.mpr
      (selection_keys_nodup hgood)
  refine ⟨hnd, ?_⟩
  intro e1 he1 e2 he2 heq
  rw [List.inj_on_of_nodup_map hnd he1 he2 heq]

/-- The run on the square raster fixture selecting web and macos. -/
def runC9 : RunResult :=
  run_core (.raster imgSq) resample0 svgRender0 (some ["web", "macos"])

/-- Witness for C9 at a concrete selection. -/
theorem C9_unique_paths_witness :
    (runC9.writes.map (fun e => e.1)).Nodup ∧
    ∀ e1 ∈ runC9.writes, ∀ e2 ∈ runC9.writes, e1.1 = e2.1 → e1.2.1 = e2.2.1 :=
  C9_unique_paths envSq "master.png" resample0 svgRender0 ["web", "macos"]
    runC9 (by decide) rfl

/-! ## Claim C4 -/

/-- The size list the upscale check draws from (script lines 328–332): all
collected PNG target sizes, plus the windows frame sizes when windows is
selected. -/
def requested_sizes (platforms : List String) : List Nat :=
  let all_sizes := (collect_targets platforms).1.map Prod.snd
  if "windows" ∈ platforms then all_sizes ++ get_windows_ico_path_and_sizes.2
  else all_sizes

/-- The maximum requested pixel size across all selected targets (0 when
nothing is selected). -/
def max_requested_size (platforms : List String) : Nat :=
  maxList (requested_sizes platforms)

/-- The upscale-advisory flag of a run, `false` for a failed run. -/
def run_warned : Except IconError RunResult → Bool
  | .ok r => r.warned_upscale
  | .error _ => false

/-- Whether a run succeeded. -/
def run_ok : Except IconError RunResult → Bool
  | .ok _ => true
  | .error _ => false

/-- `convert("RGBA")` keeps the width. -/
theorem convert_RGBA_width (i : Img) : (convert_RGBA i).width = i.width := by
  unfold convert_RGBA
  split <;> rfl

/-- `convert("RGBA")` keeps the height. -/
theorem convert_RGBA_height (i : Img) : (convert_RGBA i).height = i.height := by
  unfold convert_RGBA
  split <;> rfl

/-- Square padding yields the `max(width, height)` canvas width. -/
theorem pad_to_square_width (i : Img) :
    (pad_to_square i).width = max i.width i.height := rfl

/-- The raster branch of `generate_icons`, inverted: a successful non-SVG
run decoded some raster, converted it to RGBA, padded it square when
needed, and ran the core on that. -/
theorem generate_icons_ok_raster {env : Env} {mp : String}
    {resize : Img → Nat → Img} {svgRender : Nat → Img}
    {pArg : Option (List String)} {r : RunResult}
    (h : generate_icons env mp resize svgRender pArg = .ok r)
    (hsvg : is_svg_path mp = false) :
    ∃ im0, env.decoded = some im0 ∧
      r = run_core
        (.raster (if (convert_RGBA im0).width ≠ (convert_RGBA im0).height
          then pad_to_square (convert_RGBA im0) else convert_RGBA im0))
        resize svgRender pArg := by
  unfold generate_icons at h
  split at h
  · cases h
  · split at h
    · rename_i hc
      rw [hsvg] at hc
      cases hc
    · split at h
      · cases h
      · rename_i im0 heq
        simp only [] at h
        injection h with h
        exact ⟨im0, heq, h.symm⟩

/-- The raster upscale advisory fires exactly when the (normalized) master
width is below the maximum requested size. -/
theorem warned_iff_lt (img : Img) (resize : Img → Nat → Img)
    (svgRender : Nat → Img) (pArg : Option (List String)) :
    ((run_core (.raster img) resize svgRender pArg).warned_upscale = true) ↔
      img.width < max_requested_size (pArg.getD DEFAULT_PLATFORMS) := by
  rw [run_core_warned_raster]
  show (if (requested_sizes (pArg.getD DEFAULT_PLATFORMS)).isEmpty then false
      else decide (img.width < maxList (requested_sizes (pArg.getD DEFAULT_PLATFORMS))))
        = true ↔ _
  by_cases hemp : (requested_sizes (pArg.getD DEFAULT_PLATFORMS)).isEmpty = true
  · rw [if_pos hemp]
    have hnil : requested_sizes (pArg.getD DEFAULT_PLATFORMS) = [] := by
      simpa using hemp
    rw [max_requested_size, hnil]
    simp [maxList]
  · rw [if_neg hemp]
    rw [max_requested_size]
    simp

/-- Claim C4 counterexample: a 400×600 raster master with only the web
platform selected (maximum requested size 512) has `sourceWidth = 400 <
512`, yet the run emits no upscaling advisory — the code compares the
padded square dimension 600, not the native width. -/
def img400 : Img :=
  { width := 400, height := 600, hasAlpha := true, px := fun _ _ => ⟨0, 0, 0, 255⟩ }

/-- An environment decoding the 400×600 master. -/
def env400 : Env :=
  { master_is_file := true, decoded := some img400, pyvips_available := false }

/-- The run of the 400×600 master over the web platform. -/
def runC4 : Except IconError RunResult :=
  generate_icons env400 "master.png" resample0 svgRender0 (some ["web"])

/-- Claim C4, as stated, fails on this run: the native width is below the
maximum requested size but no advisory is emitted. -/
theorem C4_counterexample :
    img400.width < max_requested_size ["web"] ∧
    max_requested_size ["web"] = 512 ∧
    run_ok runC4 = true ∧
    run_warned runC4 = false := by
  refine ⟨by decide, by decide, rfl, rfl⟩

/-- Claim C4 as amended: for a raster master the advisory fires exactly
when the normalized square dimension `max(sourceWidth, sourceHeight)` —
not the native width — is below the maximum requested pixel size across
all selected targets (windows frame sizes included when windows is
selected); for a vector master it never fires; and the advisory does not
alter which files are written: the written (path, size) sequence is a
function of the selection alone. -/
theorem C4_upscale_advisory (env : Env) (mp : String) (resize : Img → Nat → Img)
    (svgRender : Nat → Img) (pArg : Option (List String)) (r : RunResult)
    (hrun : generate_icons env mp resize svgRender pArg = .ok r) :
    (r.svgMode = true → r.warned_upscale = false) ∧
    (∀ im0, is_svg_path mp = false → env.decoded = some im0 →
      (r.warned_upscale = true ↔
        max im0.width im0.height <
          max_requested_size (pArg.getD DEFAULT_PLATFORMS))) ∧
    (r.writes.map (fun e => (e.1, e.2.1)) =
      sortBySize (collect_targets (pArg.getD DEFAULT_PLATFORMS)).1) := by
  obtain ⟨m, hm, -⟩ := generate_icons_ok hrun
  subst hm
  refine ⟨?_, ?_, ?_⟩
  · intro hsvg
    cases m with
    | svgDoc => exact run_core_warned_svg resize svgRender pArg
    | raster img => cases hsvg
  · intro im0 hsvgf hdec
    obtain ⟨im1, hdec1, hr⟩ := generate_icons_ok_raster hrun hsvgf
    rw [hdec] at hdec1
    injection hdec1 with hdec1
    subst hdec1
    rw [hr, warned_iff_lt]
    have hw : (if (convert_RGBA im0).width ≠ (convert_RGBA im0).height
        then pad_to_square (convert_RGBA im0) else convert_RGBA im0).width
        = max im0.width im0.height := by
      by_cases hsq : (convert_RGBA im0).width ≠ (convert_RGBA im0).height
      · rw [if_pos hsq, pad_to_square_width, convert_RGBA_width, convert_RGBA_height]
      · rw [if_neg hsq, convert_RGBA_width]
        push_neg at hsq
        rw [convert_RGBA_width, convert_RGBA_height] at hsq
        omega
    rw [hw]
  · rw [run_core_writes, List.map_map]
    have hcomp : ((fun e : List String × Nat × Img => (e.1, e.2.1)) ∘
        (fun t : List String × Nat =>
          (t.1, t.2,
            if t.1 ∈ (collect_targets (pArg.getD DEFAULT_PLATFORMS)).2 then
              strip_alpha (renderAt m resize svgRender t.2)
            else renderAt m resize svgRender t.2))) =
        (fun t : List String × Nat => (t.1, t.2)) := rfl
    rw [hcomp]
    exact List.map_id _

/-- The run result of the 400×600 master over the web platform. -/
def runC4r : RunResult :=
  run_core (.raster (pad_to_square img400)) resample0 svgRender0 (some ["web"])

/-- Witness for the amended C4 at the 400×600 master over the web
platform. -/
theorem C4_upscale_advisory_witness :
    ((runC4r.svgMode = true → runC4r.warned_upscale = false) ∧
     (∀ im0, is_svg_path "master.png" = false → env400.decoded = some im0 →
       (runC4r.warned_upscale = true ↔
         max im0.width im0.height <
           max_requested_size ((some ["web"]).getD DEFAULT_PLATFORMS))) ∧
     (runC4r.writes.map (fun e => (e.1, e.2.1)) =
       sortBySize (collect_targets ((some ["web"]).getD DEFAULT_PLATFORMS)).1)) :=
  C4_upscale_advisory env400 "master.png" resample0 svgRender0 (some ["web"])
    runC4r rfl

/-! ## Claim C7 -/

/-- Claim C7: if a platform list was actually requested (the `--platform`
argument is truthy, i.e. non-empty — an empty string leaves the default
set) and its parsed list contains a name not in the catalog, the run
fails with the `UnknownPlatform` usage error before any processing, and
no output file is written for any platform. -/
theorem C7_unknown_platform (env : Env) (mp : String) (resize : Img → Nat → Img)
    (svgRender : Nat → Img) (s : String) (hts : s ≠ "")
    (hbad : ∃ p ∈ parse_platform_arg s, p ∉ ALL_PLATFORMS) :
    main_run env mp resize svgRender (some s) = .usage_error ∧
    main_written_paths (main_run env mp resize svgRender (some s)) = [] := by
  obtain ⟨p, hp, hnot⟩ := hbad
  have hinv : p ∈ (parse_platform_arg s).filter (fun q => ¬ q ∈ ALL_PLATFORMS) :=
    List.mem_filter.mpr ⟨hp, by simpa using hnot⟩
  have hne : ¬ (((parse_platform_arg s).filter
      (fun q => ¬ q ∈ ALL_PLATFORMS)).isEmpty = true) := by
    intro hemp
    rw [List.isEmpty_iff] at hemp
    rw [hemp] at hinv
    cases hinv
  have heq : main_run env mp resize svgRender (some s) = .usage_error := by
    show (if s = "" then
        MainResult.ran (generate_icons env mp resize svgRender none)
      else if ((parse_platform_arg s).filter
          (fun q => ¬ q ∈ ALL_PLATFORMS)).isEmpty then
        MainResult.ran (generate_icons env mp resize svgRender
          (some (parse_platform_arg s)))
      else .usage_error) = .usage_error
    rw [if_neg hts, if_neg hne]
  refine ⟨heq, ?_⟩
  rw [heq]
  rfl

/-- Witness for C7: `--platform android,atari` aborts with the usage error
and writes nothing. -/
theorem C7_unknown_platform_witness :
    main_run envSq "master.png" resample0 svgRender0 (some "android,atari")
        = .usage_error ∧
    main_written_paths (main_run envSq "master.png" resample0 svgRender0
        (some "android,atari")) = [] :=
  C7_unknown_platform envSq "master.png" resample0 svgRender0 "android,atari"
    (by decide) ⟨"atari", by decide, by decide⟩

/-! ## Claim C8 -/

/-- The single-frame writes of a run, none for a failed run. -/
def run_writes : Except IconError RunResult → List (List String × Nat × Img)
  | .ok r => r.writes
  | .error _ => []

/-- The ICO container write of a run, none for a failed run. -/
def run_ico : Except IconError RunResult → Option IcoWrite
  | .ok r => r.ico
  | .error _ => none

/-- Claim C8: `generate_icons` fails with `UnreadableMaster` when the
master file is missing or undecodable, and with
`MissingOptionalCapability` when the master is an SVG document and pyvips
is unavailable; each check fires eagerly, before any target is rendered
and before any file or container is produced. -/
theorem C8_eager_failures (env : Env) (mp : String) (resize : Img → Nat → Img)
    (svgRender : Nat → Img) (pArg : Option (List String)) :
    (env.master_is_file = false →
      generate_icons env mp resize svgRender pArg = .error .UnreadableMaster) ∧
    (env.master_is_file = true → is_svg_path mp = false → env.decoded = none →
      generate_icons env mp resize svgRender pArg = .error .UnreadableMaster) ∧
    (env.master_is_file = true → is_svg_path mp = true →
      env.pyvips_available = false →
      generate_icons env mp resize svgRender pArg
        = .error .MissingOptionalCapability) ∧
    (∀ e, generate_icons env mp resize svgRender pArg = .error e →
      run_writes (generate_icons env mp resize svgRender pArg) = [] ∧
      run_ico (generate_icons env mp resize svgRender pArg) = none) := by
  refine ⟨?_, ?_, ?_, ?_⟩
  · intro hf
    unfold generate_icons
    rw [if_pos hf]
  · intro hf hsvg hdec
    simp [generate_icons, hf, hsvg, hdec]
  · intro hf hsvg hpy
    simp [generate_icons, hf, hsvg, hpy]
  · intro e he
    rw [he]
    exact ⟨rfl, rfl⟩

/-- An environment whose master path does not exist. -/
def envMissing : Env :=
  { master_is_file := false, decoded := none, pyvips_available := false }

/-- Witness for C8: a missing master fails with `UnreadableMaster`. -/
theorem C8_eager_failures_witness :
    generate_icons envMissing "master.png" resample0 svgRender0 none
      = .error .UnreadableMaster :=
  (C8_eager_failures envMissing "master.png" resample0 svgRender0 none).1 rfl

/-! ## Claim C10 -/

/-- Claim C10: `generate_icons` classifies the master as a vector document
exactly when the path's file extension is `.svg` case-insensitively; for
such a path no raster decode is consulted (the run is identical whatever
`Image.open` would have produced), and for any other extension the raster
decode is attempted — an undecodable file fails with `UnreadableMaster`
even if its contents were SVG — and a successful run is not in SVG
mode. -/
theorem C10_svg_classification (env : Env) (mp : String)
    (resize : Img → Nat → Img) (svgRender : Nat → Img)
    (pArg : Option (List String)) (hfile : env.master_is_file = true) :
    (is_svg_path mp = true →
      (∀ d1 d2, generate_icons { env with decoded := d1 } mp resize svgRender pArg
          = generate_icons { env with decoded := d2 } mp resize svgRender pArg) ∧
      (env.pyvips_available = true →
        generate_icons env mp resize svgRender pArg
            = .ok (run_core .svgDoc resize svgRender pArg) ∧
        (run_core MasterDecoded.svgDoc resize svgRender pArg).svgMode = true)) ∧
    (is_svg_path mp = false →
      (env.decoded = none →
        generate_icons env mp resize svgRender pArg = .error .UnreadableMaster) ∧
      (∀ r, generate_icons env mp resize svgRender pArg = .ok r →
        r.svgMode = false)) ∧
    (is_svg_path mp = true ↔
      lowerChars (pathSuffixOfName (pathName mp)) = ".svg".data) := by
  refine ⟨?_, ?_, ?_⟩
  · intro hsvg
    constructor
    · intro d1 d2
      simp [generate_icons, hfile, hsvg]
    · intro hpy
      refine ⟨?_, rfl⟩
      simp [generate_icons, hfile, hsvg, hpy]
  · intro hsvg
    constructor
    · intro hdec
      simp [generate_icons, hfile, hsvg, hdec]
    · intro r hok
      obtain ⟨im0, -, hr⟩ := generate_icons_ok_raster hok hsvg
      rw [hr]
      rfl
  · unfold is_svg_path
    exact decide_eq_true_iff

/-- An environment with an existing SVG master and pyvips present. -/
def envSvg : Env :=
  { master_is_file := true, decoded := none, pyvips_available := true }

/-- Witness for C10 at the upper-case path `Logo.SVG`. -/
theorem C10_svg_classification_witness :
    ((is_svg_path "Logo.SVG" = true →
      (∀ d1 d2, generate_icons { envSvg with decoded := d1 } "Logo.SVG"
            resample0 svgRender0 none
          = generate_icons { envSvg with decoded := d2 } "Logo.SVG"
            resample0 svgRender0 none) ∧
      (envSvg.pyvips_available = true →
        generate_icons envSvg "Logo.SVG" resample0 svgRender0 none
            = .ok (run_core .svgDoc resample0 svgRender0 none) ∧
        (run_core MasterDecoded.svgDoc resample0 svgRender0 none).svgMode = true)) ∧
    (is_svg_path "Logo.SVG" = false →
      (envSvg.decoded = none →
        generate_icons envSvg "Logo.SVG" resample0 svgRender0 none
          = .error .UnreadableMaster) ∧
      (∀ r, generate_icons envSvg "Logo.SVG" resample0 svgRender0 none = .ok r →
        r.svgMode = false)) ∧
    (is_svg_path "Logo.SVG" = true ↔
      lowerChars (pathSuffixOfName (pathName "Logo.SVG")) = ".svg".data)) :=
  C10_svg_classification envSvg "Logo.SVG" resample0 svgRender0 none rfl
